import Mathlib

/-!
Verification of the product-label scanner's normalization pipeline
(src/lib/productParser.ts and the scan route src/app/api/scan/route.ts).

The pipeline works on runtime JavaScript values produced by JSON.parse, so we
embed a JS value type and the handful of JS primitives the source uses:
truthiness, property access (which throws on null), Object.assign, String()
coercion and Array.prototype.join. TypeScript casts are erased at runtime and
are therefore not modelled as checks.
-/

/-- Runtime JavaScript value as produced by JSON.parse: null, boolean, number,
string, array or object (an ordered list of key/value fields with unique keys). -/
inductive JsValue where
  | null
  | bool (b : Bool)
  | num (n : Int)
  | str (s : String)
  | arr (xs : List JsValue)
  | obj (fields : List (String × JsValue))
deriving Repr

/-- JS truthiness of a value: null, false, 0 and the empty string are falsy;
arrays and objects (even empty ones) are truthy. -/
def truthy : JsValue → Bool
  | .null => false
  | .bool b => b
  | .num n => n != 0
  | .str s => s != ""
  | .arr _ => true
  | .obj _ => true

/-- Truthiness of a property read, where none models the JS value undefined. -/
def truthyO : Option JsValue → Bool
  | none => false
  | some v => truthy v

/-- First binding of a key in an object's field list (JS objects have unique
keys, so first and only). none models reading an absent key (undefined). -/
def lookupField (fs : List (String × JsValue)) (k : String) : Option JsValue :=
  (fs.find? (fun p => p.1 == k)).map (·.2)

/-- Named-property read on an arbitrary value. Reading a named property of a
number, string, boolean or array yields undefined for every key the source
accesses; reading from null would throw, but every such read in the source is
guarded by a truthiness check, so the null case is unreachable and mapped to
undefined here. -/
def getProp : JsValue → String → Option JsValue
  | .obj fs, k => lookupField fs k
  | _, _ => none

/-- Property read through an optional receiver (getO g k models g.k where g
came from a guarded property read). -/
def getO (g : Option JsValue) (k : String) : Option JsValue :=
  match g with
  | some v => getProp v k
  | none => none

/-- JS property write obj[k] = v: an existing key keeps its position and gets
the new value, a new key is appended at the end. -/
def setProp : List (String × JsValue) → String → JsValue → List (String × JsValue)
  | [], k, v => [(k, v)]
  | (k', w) :: rest, k, v =>
    if k' == k then (k, v) :: rest else (k', w) :: setProp rest k v

/-- Own enumerable properties of an Object.assign source: an object's fields;
a string contributes its index properties (one single-character string per
position); an array contributes its index properties; other primitives
contribute nothing. -/
def srcEntries : JsValue → List (String × JsValue)
  | .obj fs => fs
  | .str s => s.data.enum.map (fun p => (toString p.1, JsValue.str (String.mk [p.2])))
  | .arr xs => xs.enum.map (fun p => (toString p.1, p.2))
  | _ => []

/-- Object.assign(target, src): copy each own enumerable property of src onto
the target in order. -/
def assignSrc (t : List (String × JsValue)) (src : JsValue) : List (String × JsValue) :=
  (srcEntries src).foldl (fun acc p => setProp acc p.1 p.2) t

mutual
/-- JS String() coercion of the values reachable from JSON: String(null) is
"null", booleans and numbers print themselves, a string is unchanged, an array
stringifies as its elements joined with commas, an object as [object Object]. -/
def jsToString : JsValue → String
  | .null => "null"
  | .bool b => if b then "true" else "false"
  | .num n => toString n
  | .str s => s
  | .arr xs => String.intercalate "," (jsElems xs)
  | .obj _ => "[object Object]"

/-- Element coercions used by Array.prototype.join: null (and undefined) join
as the empty string, other elements via String(). -/
def jsElems : List JsValue → List String
  | [] => []
  | .null :: xs => "" :: jsElems xs
  | x :: xs => jsToString x :: jsElems xs
end

/-- Array.prototype.join(sep). -/
def jsJoin (sep : String) (xs : List JsValue) : String :=
  String.intercalate sep (jsElems xs)

/-- The fssaiLicense normalization from flattenNestedData: an array is joined
with comma-space into one string, any other value is coerced with String(). -/
def fssaiFlatten : JsValue → String
  | .arr xs => jsJoin ", " xs
  | v => jsToString v

/-- The flat-shape test of flattenNestedData: the input counts as already flat
when it has a truthy name or company property, or lacks both of the group
headers Basic Information and Dates and Batch. -/
def isFlatData (d : JsValue) : Bool :=
  truthyO (getProp d "name") || truthyO (getProp d "company") ||
    (!truthyO (getProp d "Basic Information") && !truthyO (getProp d "Dates & Batch"))

/-- One shallow-merge step: if the group value is truthy, Object.assign its
own properties onto the accumulated flat object, otherwise skip the group. -/
def stepAssign (f : List (String × JsValue)) (g : Option JsValue) : List (String × JsValue) :=
  if truthyO g then assignSrc f ((g.getD .null)) else f

/-- One lift step: read key k of the group value and, if the result is truthy,
store tr applied to it under k in the flat object; a falsy or absent value is
skipped. -/
def liftIf (f : List (String × JsValue)) (g : Option JsValue) (k : String)
    (tr : JsValue → JsValue) : List (String × JsValue) :=
  let a := getO g k
  if truthyO a then setProp f k (tr (a.getD .null)) else f

/-- The grouped branch of flattenNestedData: shallow-merge Basic Information
and Dates and Batch, then lift the known keys of the four remaining groups,
with the fssaiLicense join and the String() coercion of vegetarian. -/
def buildFlattened (d : JsValue) : List (String × JsValue) :=
  let f1 := stepAssign [] (getProp d "Basic Information")
  let f2 := stepAssign f1 (getProp d "Dates & Batch")
  let ing := getProp d "Ingredients & Nutrition"
  let f3 := if truthyO ing then
      liftIf (liftIf f2 ing "ingredients" id) ing "nutritionalInfo" id
    else f2
  let man := getProp d "Manufacturing & Regulatory"
  let f4 := if truthyO man then
      liftIf (liftIf (liftIf f3 man "manufacturingAddresses" id)
          man "fssaiLicense" (fun v => .str (fssaiFlatten v)))
        man "vegetarian" (fun v => .str (jsToString v))
    else f3
  let con := getProp d "Contact Information"
  let f5 := if truthyO con then liftIf f4 con "consumerContact" id else f4
  let oth := getProp d "Other Details"
  if truthyO oth then liftIf f5 oth "otherDetails" id else f5

/-- flattenNestedData from src/lib/productParser.ts. Reading a property of a
null input throws a TypeError (modelled as Except.error); otherwise the input
is returned unchanged when it tests flat, and the grouped branch is run when
it does not. -/
def flattenNestedData (data : JsValue) : Except Unit JsValue :=
  match data with
  | .null => .error ()
  | d => .ok (if isFlatData d then d else .obj (buildFlattened d))

/-!
The canonical product record. At runtime a ProductData value is a plain object
with the nineteen canonical keys; each field here is the runtime value of that
property, with none standing for the JS value undefined (the missing
sentinel). Because the fallback path copies values through unchecked casts, a
field can hold a value of any runtime type, so fields are Option JsValue.
-/

/-- Runtime shape of the object returned by parseProductText / parseProductImage:
the nineteen canonical properties, each possibly undefined. -/
structure ProductRecord where
  name : Option JsValue
  company : Option JsValue
  manufacturer : Option JsValue
  ingredients : Option JsValue
  expiryDate : Option JsValue
  bestBefore : Option JsValue
  mrp : Option JsValue
  price : Option JsValue
  netWeight : Option JsValue
  batchNumber : Option JsValue
  manufacturingDate : Option JsValue
  barcode : Option JsValue
  nutritionalInfo : Option JsValue
  manufacturingAddresses : Option JsValue
  fssaiLicense : Option JsValue
  consumerContact : Option JsValue
  vegetarian : Option JsValue
  trademark : Option JsValue
  otherDetails : Option JsValue
deriving Repr

/-- The record every field of which is the missing sentinel (undefined),
returned by the catch-all failure path. -/
def emptyProduct : ProductRecord :=
  ⟨none, none, none, none, none, none, none, none, none, none,
   none, none, none, none, none, none, none, none, none⟩

/-- The canonical top-level field names of ProductSchema. -/
def canonicalKeys : List String :=
  ["name", "company", "manufacturer", "ingredients", "expiryDate", "bestBefore",
   "mrp", "price", "netWeight", "batchNumber", "manufacturingDate", "barcode",
   "nutritionalInfo", "manufacturingAddresses", "fssaiLicense", "consumerContact",
   "vegetarian", "trademark", "otherDetails"]

/-- A property entry of the result object: absent when the field is undefined. -/
def optEntry (k : String) : Option JsValue → List (String × JsValue)
  | none => []
  | some v => [(k, v)]

/-- The defined properties of a returned record, as a JS object field list. -/
def recordToObj (r : ProductRecord) : List (String × JsValue) :=
  optEntry "name" r.name ++ optEntry "company" r.company ++
  optEntry "manufacturer" r.manufacturer ++ optEntry "ingredients" r.ingredients ++
  optEntry "expiryDate" r.expiryDate ++ optEntry "bestBefore" r.bestBefore ++
  optEntry "mrp" r.mrp ++ optEntry "price" r.price ++
  optEntry "netWeight" r.netWeight ++ optEntry "batchNumber" r.batchNumber ++
  optEntry "manufacturingDate" r.manufacturingDate ++ optEntry "barcode" r.barcode ++
  optEntry "nutritionalInfo" r.nutritionalInfo ++
  optEntry "manufacturingAddresses" r.manufacturingAddresses ++
  optEntry "fssaiLicense" r.fssaiLicense ++ optEntry "consumerContact" r.consumerContact ++
  optEntry "vegetarian" r.vegetarian ++ optEntry "trademark" r.trademark ++
  optEntry "otherDetails" r.otherDetails

/-!
Model of ProductSchema.safeParse. Every scalar field is
z.string().nullish().transform(v => v ?? undefined): absent, null and
undefined normalize to undefined, a string passes through, anything else is a
validation issue. Sequences must be arrays of strings, the two nested objects
are validated against their sub-schemas, otherDetails must be a string-to-string
record. z.object collects issues across all fields; safeParse succeeds exactly
when no field has an issue, and its output object carries only the schema's own
keys (unknown keys are stripped).
-/

/-- Validation of one nullish string field. -/
def vStr : Option JsValue → Option (Option JsValue)
  | none => some none
  | some .null => some none
  | some (.str s) => some (some (.str s))
  | some _ => none

/-- Whether every element of a list is a string value. -/
def isStrList : List JsValue → Bool
  | [] => true
  | .str _ :: xs => isStrList xs
  | _ => false

/-- Validation of one nullish array-of-strings field. -/
def vArr : Option JsValue → Option (Option JsValue)
  | none => some none
  | some .null => some none
  | some (.arr xs) => if isStrList xs then some (some (.arr xs)) else none
  | some _ => none

/-- Validation of the nullish nutritionalInfo sub-object: nine nullish string
fields; the validated output keeps only the defined ones. -/
def vNutrition : Option JsValue → Option (Option JsValue)
  | none => some none
  | some .null => some none
  | some (.obj fs) => do
    let energy ← vStr (lookupField fs "energy")
    let protein ← vStr (lookupField fs "protein")
    let totalCarbohydrate ← vStr (lookupField fs "totalCarbohydrate")
    let sugars ← vStr (lookupField fs "sugars")
    let totalFat ← vStr (lookupField fs "totalFat")
    let saturatedFat ← vStr (lookupField fs "saturatedFat")
    let transFat ← vStr (lookupField fs "transFat")
    let sodium ← vStr (lookupField fs "sodium")
    let servingSize ← vStr (lookupField fs "servingSize")
    some (some (.obj (optEntry "energy" energy ++ optEntry "protein" protein ++
      optEntry "totalCarbohydrate" totalCarbohydrate ++ optEntry "sugars" sugars ++
      optEntry "totalFat" totalFat ++ optEntry "saturatedFat" saturatedFat ++
      optEntry "transFat" transFat ++ optEntry "sodium" sodium ++
      optEntry "servingSize" servingSize)))
  | some _ => none

/-- Validation of the nullish consumerContact sub-object: four nullish string
fields. -/
def vContact : Option JsValue → Option (Option JsValue)
  | none => some none
  | some .null => some none
  | some (.obj fs) => do
    let phone ← vStr (lookupField fs "phone")
    let email ← vStr (lookupField fs "email")
    let address ← vStr (lookupField fs "address")
    let website ← vStr (lookupField fs "website")
    some (some (.obj (optEntry "phone" phone ++ optEntry "email" email ++
      optEntry "address" address ++ optEntry "website" website)))
  | some _ => none

/-- Validation of the nullish otherDetails record: an object all of whose
values are strings. -/
def vRecordStr : Option JsValue → Option (Option JsValue)
  | none => some none
  | some .null => some none
  | some (.obj fs) =>
    if fs.all (fun p => match p.2 with | .str _ => true | _ => false)
    then some (some (.obj fs)) else none
  | some _ => none

/-- ProductSchema.safeParse on the flattened value: none models a failed
strict validation, some r a success with validated record r. A non-object
input (zod type-checks the top level) fails. -/
def parseStrict : JsValue → Option ProductRecord
  | .obj fs =>
    match vStr (lookupField fs "name"), vStr (lookupField fs "company"),
      vStr (lookupField fs "manufacturer"), vArr (lookupField fs "ingredients"),
      vStr (lookupField fs "expiryDate"), vStr (lookupField fs "bestBefore"),
      vStr (lookupField fs "mrp"), vStr (lookupField fs "price"),
      vStr (lookupField fs "netWeight"), vStr (lookupField fs "batchNumber"),
      vStr (lookupField fs "manufacturingDate"), vStr (lookupField fs "barcode"),
      vNutrition (lookupField fs "nutritionalInfo"),
      vArr (lookupField fs "manufacturingAddresses"),
      vStr (lookupField fs "fssaiLicense"), vContact (lookupField fs "consumerContact"),
      vStr (lookupField fs "vegetarian"), vStr (lookupField fs "trademark"),
      vRecordStr (lookupField fs "otherDetails") with
    | some name, some company, some manufacturer, some ingredients,
      some expiryDate, some bestBefore, some mrp, some price, some netWeight,
      some batchNumber, some manufacturingDate, some barcode,
      some nutritionalInfo, some manufacturingAddresses, some fssaiLicense,
      some consumerContact, some vegetarian, some trademark, some otherDetails =>
      some ⟨name, company, manufacturer, ingredients, expiryDate, bestBefore,
        mrp, price, netWeight, batchNumber, manufacturingDate, barcode,
        nutritionalInfo, manufacturingAddresses, fssaiLicense, consumerContact,
        vegetarian, trademark, otherDetails⟩
    | _, _, _, _, _, _, _, _, _, _, _, _, _, _, _, _, _, _, _ => none
  | _ => none

/-- The runtime effect of the ?? undefined in the fallback object literal:
null becomes undefined, everything else is kept. -/
def nullToUndef : Option JsValue → Option JsValue
  | some .null => none
  | o => o

/-- The fallback object literal of parseProductText / parseProductImage on a
failed strict validation: each canonical property is read off the flattened
value through a TypeScript cast (no runtime type check) and null-coalesced to
undefined — except nutritionalInfo and consumerContact, which are copied
without the ?? undefined. -/
def bestEffortExtract (v : JsValue) : ProductRecord :=
  { name := nullToUndef (getProp v "name")
    company := nullToUndef (getProp v "company")
    manufacturer := nullToUndef (getProp v "manufacturer")
    ingredients := nullToUndef (getProp v "ingredients")
    expiryDate := nullToUndef (getProp v "expiryDate")
    bestBefore := nullToUndef (getProp v "bestBefore")
    mrp := nullToUndef (getProp v "mrp")
    price := nullToUndef (getProp v "price")
    netWeight := nullToUndef (getProp v "netWeight")
    batchNumber := nullToUndef (getProp v "batchNumber")
    manufacturingDate := nullToUndef (getProp v "manufacturingDate")
    barcode := nullToUndef (getProp v "barcode")
    nutritionalInfo := getProp v "nutritionalInfo"
    manufacturingAddresses := nullToUndef (getProp v "manufacturingAddresses")
    fssaiLicense := nullToUndef (getProp v "fssaiLicense")
    consumerContact := getProp v "consumerContact"
    vegetarian := nullToUndef (getProp v "vegetarian")
    trademark := nullToUndef (getProp v "trademark")
    otherDetails := nullToUndef (getProp v "otherDetails") }

/-- The validation stage of both entry points: safeParse, and on failure the
best-effort fallback literal. -/
def validateOrFallback (v : JsValue) : ProductRecord :=
  match parseStrict v with
  | some r => r
  | none => bestEffortExtract v

/-!
The entry points parseProductText and parseProductImage. The model gateway
call and JSON.parse are external effects, passed in as values: gw is the
outcome of the chat-completion call (error when the API call threw, otherwise
the content field, which may be absent) and jsonParse is the outcome of
JSON.parse on each possible content string (error when parsing threw). The
missing-credential throw happens before the try block, so it propagates; every
throw inside the try block is converted to the all-undefined record by the
catch. The gatewayCalls field counts chat-completion invocations.
-/

/-- Outcome of one entry-point invocation: outcome is the value returned (or
the propagated ConfigurationError), gatewayCalls the number of model-gateway
invocations performed. -/
structure ParseResult where
  outcome : Except Unit ProductRecord
  gatewayCalls : Nat
deriving Repr

/-- The credential check !apiKey: absent or empty means missing. -/
def keyPresent : Option String → Bool
  | none => false
  | some s => s != ""

/-- The body of the try block after the gateway returned: throw on falsy
content, JSON.parse the content, flatten, then validate with fallback. -/
def tryPipeline (content : Option String) (jsonParse : String → Except Unit JsValue) :
    Except Unit ProductRecord := do
  let c ← match content with
    | none => Except.error ()
    | some s => if s == "" then Except.error () else Except.ok s
  let parsed ← jsonParse c
  let flattened ← flattenNestedData parsed
  Except.ok (validateOrFallback flattened)

/-- The whole try block of parseProductText: gateway call then the rest of the
pipeline. An error value is a throw reaching the catch. -/
def textAttempt (gw : Except Unit (Option String))
    (jsonParse : String → Except Unit JsValue) : Except Unit ProductRecord := do
  let content ← gw
  tryPipeline content jsonParse

/-- parseProductText from src/lib/productParser.ts: reject a missing
credential before any network activity, otherwise run the try block once
(one gateway call) and convert any throw into the all-undefined record. -/
def parseProductText (apiKey : Option String) (gw : Except Unit (Option String))
    (jsonParse : String → Except Unit JsValue) : ParseResult :=
  if keyPresent apiKey then
    { outcome := Except.ok (match textAttempt gw jsonParse with
        | .ok r => r
        | .error _ => emptyProduct)
      gatewayCalls := 1 }
  else
    { outcome := Except.error (), gatewayCalls := 0 }

/-- parseProductImage from src/lib/productParser.ts: same structure as
parseProductText (the prompt and image payload do not influence the
post-gateway pipeline; they are kept as arguments for the signature). -/
def parseProductImage (imageBase64 : String) (mimeType : String)
    (apiKey : Option String) (gw : Except Unit (Option String))
    (jsonParse : String → Except Unit JsValue) : ParseResult :=
  if keyPresent apiKey then
    { outcome := Except.ok (match textAttempt gw jsonParse with
        | .ok r => r
        | .error _ => emptyProduct)
      gatewayCalls := 1 }
  else
    { outcome := Except.error (), gatewayCalls := 0 }

/-!
The scan route's fallback responses (src/app/api/scan/route.ts, OCR-text
branch): when AI parsing throws, the route classifies the failure and answers
with an advisory message, a failure code and the raw OCR text truncated by
substring(0, 1000).
-/

/-- The four failure classifications of the OCR-text branch's catch. -/
inductive FailKind where
  | modelNotFound
  | authFailed
  | quotaExceeded
  | parsingFailed
deriving Repr, DecidableEq

/-- The advisory message attached to each failure kind. -/
def advisoryMessage : FailKind → String
  | .modelNotFound => "Gemini API model not found. The model name may be incorrect. Showing raw OCR text. Please check the model configuration."
  | .authFailed => "Gemini API authentication failed. The API key may be invalid or expired. Showing raw OCR text. Please verify your API key at https://makersuite.google.com/app/apikey"
  | .quotaExceeded => "Gemini API quota exceeded. Showing raw OCR text. Please check your billing or try again later."
  | .parsingFailed => "AI parsing failed. Showing raw OCR text."

/-- The code attached to each failure kind. -/
def failCode : FailKind → String
  | .modelNotFound => "model_not_found"
  | .authFailed => "auth_failed"
  | .quotaExceeded => "quota_exceeded"
  | .parsingFailed => "parsing_failed"

/-- ocrText.substring(0, 1000): the first 1000 characters (all of the text
when it is shorter). The source strings here are plain text, so characters
coincide with UTF-16 code units. -/
def substringTo (s : String) (n : Nat) : String :=
  s.take n

/-- Body of the fallback JSON response in the OCR-text branch: success flag,
rawText from substring(0, 1000), the per-kind advisory message and code. -/
structure ScanFallbackResponse where
  success : Bool
  rawText : String
  message : String
  code : String
deriving Repr, DecidableEq

/-- The fallback response the route builds for a classified parsing failure. -/
def scanFallback (k : FailKind) (ocrText : String) : ScanFallbackResponse :=
  { success := true
    rawText := substringTo ocrText 1000
    message := advisoryMessage k
    code := failCode k }

/-! Helper lemmas about field lookup, property writes and Object.assign. -/

lemma lookupField_nil (k : String) : lookupField [] k = none := rfl

lemma truthy_obj (fs : List (String × JsValue)) : truthy (.obj fs) = true := rfl

lemma lookupField_cons (k₁ : String) (w : JsValue) (rest : List (String × JsValue))
    (k : String) :
    lookupField ((k₁, w) :: rest) k = if (k₁ == k) = true then some w else lookupField rest k := by
  by_cases h : (k₁ == k) = true <;> simp [lookupField, List.find?, h]

lemma lookupField_setProp_ne (t : List (String × JsValue)) (k' k : String) (v : JsValue)
    (h : k' ≠ k) : lookupField (setProp t k' v) k = lookupField t k := by
  have hk' : (k' == k) = false := beq_eq_false_iff_ne.mpr h
  induction t with
  | nil => simp [setProp, lookupField_cons, hk', lookupField_nil]
  | cons p rest ih =>
    obtain ⟨k₁, w⟩ := p
    simp only [setProp]
    by_cases h₁ : (k₁ == k') = true
    · have hk₁ : (k₁ == k) = false := by
        have hEq : k₁ = k' := eq_of_beq h₁
        subst hEq; exact hk'
      simp [h₁, lookupField_cons, hk', hk₁]
    · simp only [h₁, if_false, Bool.false_eq_true]
      rw [lookupField_cons, lookupField_cons, ih]

lemma lookupField_foldl_setProp (src : List (String × JsValue)) (t : List (String × JsValue))
    (k : String) (h : lookupField src k = none) :
    lookupField (src.foldl (fun acc p => setProp acc p.1 p.2) t) k = lookupField t k := by
  induction src generalizing t with
  | nil => rfl
  | cons p rest ih =>
    obtain ⟨k₁, w⟩ := p
    rw [lookupField_cons] at h
    by_cases h₁ : (k₁ == k) = true
    · simp [h₁] at h
    · simp only [h₁, if_false, Bool.false_eq_true] at h
      simp only [List.foldl]
      rw [ih _ h, lookupField_setProp_ne]
      exact ne_of_beq_false (Bool.not_eq_true _ ▸ h₁)

lemma lookupField_assignSrc_obj (f : List (String × JsValue)) (g : List (String × JsValue))
    (k : String) (h : lookupField g k = none) :
    lookupField (assignSrc f (.obj g)) k = lookupField f k :=
  lookupField_foldl_setProp g f k h

lemma lookupField_stepAssign_obj (f : List (String × JsValue)) (g : List (String × JsValue))
    (k : String) (h : lookupField g k = none) :
    lookupField (stepAssign f (some (.obj g))) k = lookupField f k := by
  simp only [stepAssign, truthyO, truthy, if_true, Option.getD_some]
  exact lookupField_assignSrc_obj f g k h

lemma lookupField_liftIf_ne (f : List (String × JsValue)) (g : Option JsValue) (k₀ : String)
    (tr : JsValue → JsValue) (k : String) (h : k₀ ≠ k) :
    lookupField (liftIf f g k₀ tr) k = lookupField f k := by
  unfold liftIf
  dsimp only
  split
  · exact lookupField_setProp_ne f k₀ k _ h
  · rfl

/-! Claim theorems. -/

/-- C10: flattenNestedData is total on JSON objects: for every object input,
whatever its group keys hold (primitives, nulls, arrays, nested objects), it
returns an object and never throws. -/
theorem flattenNestedData_total_on_objects (fs : List (String × JsValue)) :
    ∃ gs : List (String × JsValue), flattenNestedData (.obj fs) = .ok (.obj gs) := by
  by_cases h : isFlatData (.obj fs) = true
  · exact ⟨fs, by simp [flattenNestedData, h]⟩
  · exact ⟨buildFlattened (.obj fs), by simp [flattenNestedData, h]⟩

/-- C3 (counterexample): flattening is not idempotent on its own output. The
grouped object whose Basic Information group itself contains a Basic
Information key flattens to an object that is again classified as grouped, so
a second flattening changes it. -/
theorem flatten_not_idempotent_ce :
    flattenNestedData
        (.obj [("Basic Information",
          .obj [("Basic Information", .obj [("name", .str "A")])])]) =
      .ok (.obj [("Basic Information", .obj [("name", .str "A")])]) ∧
    flattenNestedData (.obj [("Basic Information", .obj [("name", .str "A")])]) =
      .ok (.obj [("name", .str "A")]) ∧
    JsValue.obj [("name", .str "A")] ≠
      JsValue.obj [("Basic Information", .obj [("name", .str "A")])] := by
  refine ⟨rfl, rfl, ?_⟩
  simp

/-- C3 (amended): every non-null input classified as flat — truthy name or
company, or lacking both Basic Information and Dates and Batch — is returned
unchanged by flattenNestedData. Flattening is therefore idempotent on inputs
classified flat, but not on every output, since a grouped input can flatten to
an object that is again classified grouped. -/
theorem flatten_identity_on_flat (d : JsValue) (hnull : d ≠ .null)
    (hflat : isFlatData d = true) : flattenNestedData d = .ok d := by
  cases d <;> first
    | exact absurd rfl hnull
    | simp [flattenNestedData, hflat]

theorem flatten_identity_on_flat_witness :
    flattenNestedData (.obj [("name", .str "Tea")]) = .ok (.obj [("name", .str "Tea")]) :=
  flatten_identity_on_flat (.obj [("name", .str "Tea")]) (by simp) rfl

/-- C4: a grouped object with all six group keys populated flattens to the
union of the lifted fields of every group, with the fssaiLicense sequence
A1234, B5678 joined into the single comma-space separated string, and (second
conjunct) a non-sequence fssaiLicense or vegetarian value coerced with
String(). -/
theorem flatten_grouped_all_six_groups :
    flattenNestedData (.obj [
        ("Basic Information", .obj [("name", .str "Choco Bar"), ("company", .str "CocoCo")]),
        ("Dates & Batch", .obj [("expiryDate", .str "2025-12-01"), ("batchNumber", .str "B42")]),
        ("Ingredients & Nutrition", .obj [("ingredients", .arr [.str "Cocoa", .str "Sugar"]),
          ("nutritionalInfo", .obj [("energy", .str "555 kcal")])]),
        ("Manufacturing & Regulatory", .obj [("manufacturingAddresses", .arr [.str "Plant 1"]),
          ("fssaiLicense", .arr [.str "A1234", .str "B5678"]), ("vegetarian", .bool true)]),
        ("Contact Information", .obj [("consumerContact", .obj [("phone", .str "1800")])]),
        ("Other Details", .obj [("otherDetails", .obj [("storage", .str "Cool")])])]) =
      .ok (.obj [
        ("name", .str "Choco Bar"), ("company", .str "CocoCo"),
        ("expiryDate", .str "2025-12-01"), ("batchNumber", .str "B42"),
        ("ingredients", .arr [.str "Cocoa", .str "Sugar"]),
        ("nutritionalInfo", .obj [("energy", .str "555 kcal")]),
        ("manufacturingAddresses", .arr [.str "Plant 1"]),
        ("fssaiLicense", .str "A1234, B5678"),
        ("vegetarian", .str "true"),
        ("consumerContact", .obj [("phone", .str "1800")]),
        ("otherDetails", .obj [("storage", .str "Cool")])]) ∧
    flattenNestedData (.obj [
        ("Basic Information", .obj []),
        ("Manufacturing & Regulatory", .obj [("fssaiLicense", .num 12345),
          ("vegetarian", .num 1)])]) =
      .ok (.obj [("fssaiLicense", .str "12345"), ("vegetarian", .str "1")]) :=
  ⟨rfl, rfl⟩

/-- C7 (counterexample): a falsy value inside the recognized Basic Information
group is NOT treated as absent: the empty-string name is shallow-merged into
the flat result even though it is falsy, so the falsy-skip does not apply to
every key of every recognized group. -/
theorem basic_info_falsy_value_copied_ce :
    flattenNestedData (.obj [("Basic Information", .obj [("name", .str "")])]) =
      .ok (.obj [("name", .str "")]) ∧
    truthy (.str "") = false :=
  ⟨rfl, rfl⟩

/-- C7 (amended): the falsy-check applies to the individually lifted keys of
the four lift groups (ingredients, nutritionalInfo, manufacturingAddresses,
fssaiLicense, vegetarian, consumerContact, otherDetails): any falsy value
there is treated as absent and omitted from the flat result. Keys inside Basic
Information and Dates and Batch are shallow-merged by presence, falsy or not. -/
theorem lifted_keys_falsy_skipped (v : JsValue) (h : truthy v = false) :
    flattenNestedData (.obj [
        ("Basic Information", .obj []),
        ("Ingredients & Nutrition", .obj [("ingredients", v), ("nutritionalInfo", v)]),
        ("Manufacturing & Regulatory", .obj [("manufacturingAddresses", v),
          ("fssaiLicense", v), ("vegetarian", v)]),
        ("Contact Information", .obj [("consumerContact", v)]),
        ("Other Details", .obj [("otherDetails", v)])]) =
      .ok (.obj []) := by
  simp [flattenNestedData, isFlatData, buildFlattened, stepAssign, liftIf, getO, getProp,
    lookupField, List.find?, assignSrc, srcEntries, truthyO, truthy_obj, h]

theorem lifted_keys_falsy_skipped_witness :
    flattenNestedData (.obj [
        ("Basic Information", .obj []),
        ("Ingredients & Nutrition", .obj [("ingredients", .str ""), ("nutritionalInfo", .str "")]),
        ("Manufacturing & Regulatory", .obj [("manufacturingAddresses", .str ""),
          ("fssaiLicense", .str ""), ("vegetarian", .str "")]),
        ("Contact Information", .obj [("consumerContact", .str "")]),
        ("Other Details", .obj [("otherDetails", .str "")])]) =
      .ok (.obj []) :=
  lifted_keys_falsy_skipped (.str "") rfl

/-- C2 (counterexample): a flat object whose ingredients field holds the
single string Sugar fails strict validation, and the best-effort fallback
carries the malformed string through unchanged instead of replacing it with
the missing sentinel: the record returned by parseProductText has ingredients
set to that very string, not to undefined. -/
theorem fallback_keeps_malformed_ingredients_ce :
    (parseProductText (some "key") (Except.ok (some "response"))
        (fun _ => Except.ok (.obj [("name", .str "Choco"), ("ingredients", .str "Sugar")]))).outcome =
      Except.ok { emptyProduct with
        name := some (.str "Choco"), ingredients := some (.str "Sugar") } ∧
    (some (JsValue.str "Sugar") ≠ (none : Option JsValue)) :=
  ⟨rfl, by simp⟩

/-- C2 (amended): on a flat object with a valid name and a malformed
ingredients field (a single string), strict validation fails and the
best-effort fallback copies every canonical field from the flat object as-is,
with no runtime type check: the valid name is preserved, the malformed
ingredients string is carried through unchanged rather than falling back to
the missing sentinel, and all absent fields are the missing sentinel. -/
theorem fallback_copies_fields_without_type_check (n s : String) :
    validateOrFallback (.obj [("name", .str n), ("ingredients", .str s)]) =
      { emptyProduct with name := some (.str n), ingredients := some (.str s) } :=
  rfl

/-- C6: a grouped object missing the Contact Information key (here with the
other named groups holding arbitrary values, and the two shallow-merge groups
not themselves supplying a consumerContact key) flattens without error, and
the flat result has no consumerContact key, so the validated record's
consumerContact is the missing sentinel. -/
theorem missing_contact_group_tolerated
    (bi db : List (String × JsValue)) (iv mv ov : JsValue)
    (hbi : lookupField bi "consumerContact" = none)
    (hdb : lookupField db "consumerContact" = none) :
    flattenNestedData (.obj [("Basic Information", .obj bi), ("Dates & Batch", .obj db),
        ("Ingredients & Nutrition", iv), ("Manufacturing & Regulatory", mv),
        ("Other Details", ov)]) =
      .ok (.obj (buildFlattened (.obj [("Basic Information", .obj bi),
        ("Dates & Batch", .obj db), ("Ingredients & Nutrition", iv),
        ("Manufacturing & Regulatory", mv), ("Other Details", ov)]))) ∧
    lookupField (buildFlattened (.obj [("Basic Information", .obj bi),
        ("Dates & Batch", .obj db), ("Ingredients & Nutrition", iv),
        ("Manufacturing & Regulatory", mv), ("Other Details", ov)]))
      "consumerContact" = none := by
  constructor
  · have hflat : isFlatData (.obj [("Basic Information", .obj bi), ("Dates & Batch", .obj db),
        ("Ingredients & Nutrition", iv), ("Manufacturing & Regulatory", mv),
        ("Other Details", ov)]) = false := rfl
    simp [flattenNestedData, hflat]
  · have hbuild : buildFlattened (.obj [("Basic Information", .obj bi),
        ("Dates & Batch", .obj db), ("Ingredients & Nutrition", iv),
        ("Manufacturing & Regulatory", mv), ("Other Details", ov)]) =
        (let f2 := stepAssign (stepAssign [] (some (.obj bi))) (some (.obj db))
         let f3 := if truthy iv then
             liftIf (liftIf f2 (some iv) "ingredients" id) (some iv) "nutritionalInfo" id
           else f2
         let f4 := if truthy mv then
             liftIf (liftIf (liftIf f3 (some mv) "manufacturingAddresses" id)
                 (some mv) "fssaiLicense" (fun v => .str (fssaiFlatten v)))
               (some mv) "vegetarian" (fun v => .str (jsToString v))
           else f3
         if truthy ov then liftIf f4 (some ov) "otherDetails" id else f4) := rfl
    rw [hbuild]
    by_cases hiv : truthy iv = true <;> by_cases hmv : truthy mv = true <;>
      by_cases hov : truthy ov = true <;>
      simp only [hiv, hmv, hov, if_true, if_false, Bool.false_eq_true,
        Bool.not_eq_true] <;>
      simp only [lookupField_liftIf_ne _ _ _ _ _ (by decide : "otherDetails" ≠ "consumerContact"),
        lookupField_liftIf_ne _ _ _ _ _ (by decide : "vegetarian" ≠ "consumerContact"),
        lookupField_liftIf_ne _ _ _ _ _ (by decide : "fssaiLicense" ≠ "consumerContact"),
        lookupField_liftIf_ne _ _ _ _ _ (by decide : "manufacturingAddresses" ≠ "consumerContact"),
        lookupField_liftIf_ne _ _ _ _ _ (by decide : "nutritionalInfo" ≠ "consumerContact"),
        lookupField_liftIf_ne _ _ _ _ _ (by decide : "ingredients" ≠ "consumerContact"),
        lookupField_stepAssign_obj _ _ _ hdb, lookupField_stepAssign_obj _ _ _ hbi,
        lookupField_nil]

theorem missing_contact_group_tolerated_witness :
    flattenNestedData (.obj [("Basic Information", .obj [("name", .str "Tea")]),
        ("Dates & Batch", .obj []), ("Ingredients & Nutrition", .null),
        ("Manufacturing & Regulatory", .null), ("Other Details", .null)]) =
      .ok (.obj (buildFlattened (.obj [("Basic Information", .obj [("name", .str "Tea")]),
        ("Dates & Batch", .obj []), ("Ingredients & Nutrition", .null),
        ("Manufacturing & Regulatory", .null), ("Other Details", .null)]))) ∧
    lookupField (buildFlattened (.obj [("Basic Information", .obj [("name", .str "Tea")]),
        ("Dates & Batch", .obj []), ("Ingredients & Nutrition", .null),
        ("Manufacturing & Regulatory", .null), ("Other Details", .null)]))
      "consumerContact" = none :=
  missing_contact_group_tolerated [("name", .str "Tea")] [] .null .null .null rfl rfl

/-- C1: whenever the credential is present and any stage inside the try block
of parseProductText throws — the gateway call itself, the falsy-content check,
JSON decoding, or flattening (textAttempt yields an error) — the function does
not propagate the exception: it returns the canonical record with every field
set to the missing sentinel. -/
theorem parse_failure_returns_empty_record (apiKey : Option String)
    (gw : Except Unit (Option String)) (jsonParse : String → Except Unit JsValue)
    (hkey : keyPresent apiKey = true) (hthrow : textAttempt gw jsonParse = .error ()) :
    (parseProductText apiKey gw jsonParse).outcome = .ok emptyProduct := by
  simp [parseProductText, hkey, hthrow]

theorem parse_failure_returns_empty_record_witness :
    (parseProductText (some "key") (Except.error ())
        (fun _ => Except.error ())).outcome = .ok emptyProduct :=
  parse_failure_returns_empty_record (some "key") (Except.error ())
    (fun _ => Except.error ()) rfl rfl

/-- C5: with an absent credential (undefined or the empty string), both
parseProductText and parseProductImage raise the configuration error before
any network activity: the outcome is the propagated error and the gateway is
invoked zero times. -/
theorem missing_credential_raises_before_gateway (apiKey : Option String)
    (gw : Except Unit (Option String)) (jsonParse : String → Except Unit JsValue)
    (img mime : String) (h : apiKey = none ∨ apiKey = some "") :
    parseProductText apiKey gw jsonParse =
      { outcome := Except.error (), gatewayCalls := 0 } ∧
    parseProductImage img mime apiKey gw jsonParse =
      { outcome := Except.error (), gatewayCalls := 0 } := by
  rcases h with h | h <;> subst h <;> exact ⟨rfl, rfl⟩

theorem missing_credential_raises_before_gateway_witness :
    parseProductText none (Except.ok (some "content")) (fun _ => Except.error ()) =
      { outcome := Except.error (), gatewayCalls := 0 } ∧
    parseProductImage "img" "image/png" none (Except.ok (some "content"))
        (fun _ => Except.error ()) =
      { outcome := Except.error (), gatewayCalls := 0 } :=
  missing_credential_raises_before_gateway none (Except.ok (some "content"))
    (fun _ => Except.error ()) "img" "image/png" (Or.inl rfl)

/-- C8 (counterexample): the scan route's fallback does not return the
original OCR text in full: for a 1001-character text the rawText of the
fallback response differs from the original, because the route truncates with
substring(0, 1000). -/
theorem scan_fallback_truncates_ce :
    (scanFallback .parsingFailed (String.mk (List.replicate 1001 'a'))).rawText ≠
      String.mk (List.replicate 1001 'a') := by
  have key : ∀ s : String, s.data.length = 1001 →
      (scanFallback .parsingFailed s).rawText ≠ s := by
    intro s hs h
    have h2 := congrArg String.data h
    simp only [scanFallback, substringTo, String.data_take] at h2
    have h4 := congrArg List.length h2
    rw [List.length_take, hs] at h4
    omega
  exact key _ (List.length_replicate 1001 'a')

/-- C8 (amended): when AI parsing fails and the boundary falls back, the
fallback response carries the first 1000 characters of the original extracted
text (a verbatim prefix, truncated by substring(0, 1000)) as rawText, and the
four failure kinds carry pairwise distinct advisory messages. -/
theorem scan_fallback_truncated_prefix_distinct_advisories :
    (∀ (k : FailKind) (ocr : String),
      scanFallback k ocr =
        { success := true, rawText := ocr.take 1000,
          message := advisoryMessage k, code := failCode k }) ∧
    advisoryMessage .modelNotFound ≠ advisoryMessage .authFailed ∧
    advisoryMessage .modelNotFound ≠ advisoryMessage .quotaExceeded ∧
    advisoryMessage .modelNotFound ≠ advisoryMessage .parsingFailed ∧
    advisoryMessage .authFailed ≠ advisoryMessage .quotaExceeded ∧
    advisoryMessage .authFailed ≠ advisoryMessage .parsingFailed ∧
    advisoryMessage .quotaExceeded ≠ advisoryMessage .parsingFailed :=
  ⟨fun _ _ => rfl, by decide, by decide, by decide, by decide, by decide, by decide⟩

lemma optEntry_all_contains (k : String) (o : Option JsValue)
    (h : k ∈ canonicalKeys) :
    (optEntry k o).all (fun p => canonicalKeys.contains p.1) = true := by
  cases o <;> simp [optEntry, h]

lemma record_keys_canonical (r : ProductRecord) :
    (recordToObj r).all (fun p => canonicalKeys.contains p.1) = true := by
  simp only [recordToObj, List.all_append, Bool.and_eq_true]
  repeat' apply And.intro
  all_goals exact optEntry_all_contains _ _ (by decide)

/-- C9: every record returned (as an ok outcome) by parseProductText or
parseProductImage — through strict validation, the best-effort fallback, or
the catch-all failure path — has only canonical field names among its defined
properties: no top-level key of the model output outside the schema survives
into the result. -/
theorem results_have_only_canonical_keys (apiKey : Option String)
    (gw : Except Unit (Option String)) (jsonParse : String → Except Unit JsValue)
    (img mime : String) (r : ProductRecord)
    (h : (parseProductText apiKey gw jsonParse).outcome = .ok r ∨
      (parseProductImage img mime apiKey gw jsonParse).outcome = .ok r) :
    (recordToObj r).all (fun p => canonicalKeys.contains p.1) = true :=
  record_keys_canonical r

theorem results_have_only_canonical_keys_witness :
    (recordToObj emptyProduct).all (fun p => canonicalKeys.contains p.1) = true :=
  results_have_only_canonical_keys (some "key") (Except.error ())
    (fun _ => Except.error ()) "img" "image/png" emptyProduct (Or.inl rfl)
